import Mathlib

/-!
Shallow embedding of the camera / vision-proxy web application.

The repository glues a browser camera preview to a cloud vision model:

* `camera-capture.js` — grabs a square, centre-cropped, downscaled JPEG frame
  from the live `<video>` element (function `captureFrame`);
* `main.js` — the camera acquisition state machine (`startCamera`,
  `stopCurrentStream`) that guarantees a single live stream per video sink;
* `ai-integration.js` / the multipart client variant — `analyzeImage` posts
  the frame to the proxy and the analyze click-handler normalises the
  response shape for display;
* the Vercel serverless proxy (`handler`) — accepts a multipart or JSON
  body, normalises the image reference to a data URL, forwards one
  chat-completion request with the bearer credential, and returns the
  versioned `modalities` envelope with legacy `text`/`result` mirrors.

Pure computations are translated as Lean functions; DOM / filesystem /
network effects are made explicit: the request parse result, the remote
call's outcome and the set of temporary files left on disk are values that
the embedded handler consumes and produces.  JavaScript truthiness on the
string-typed fields that the code tests with `if (x)` / `x || y` is
modelled explicitly (`none` and the empty string are falsy).
-/

namespace CameraApp

/-! ### Frame capture (`camera-capture.js`)

```js
const CAPTURE_CONFIG = { imageQuality: 0.8, maxWidth: 800 };
```
`imageQuality` is only handed to the JPEG encoder and plays no role in any
property below; it is recorded in hundredths to stay in exact arithmetic. -/

structure CaptureConfig where
  imageQualityHundredths : Nat
  maxWidth : Nat
  deriving Repr, DecidableEq

def CAPTURE_CONFIG : CaptureConfig :=
  { imageQualityHundredths := 80, maxWidth := 800 }

/-- The mirroring side channel `window.cameraState` written by `main.js` and
read by `captureFrame`:
```js
const cameraState = window.cameraState || { isFrontCamera: false, isMirrored: false };
```
-/
structure CameraState where
  isFrontCamera : Bool
  isMirrored : Bool
  deriving Repr, DecidableEq

/-- The default used when `window.cameraState` is unset (falsy). -/
def defaultCameraState : CameraState :=
  { isFrontCamera := false, isMirrored := false }

/-- `window.cameraState || { isFrontCamera: false, isMirrored: false }`. -/
def effectiveCameraState (windowCameraState : Option CameraState) : CameraState :=
  windowCameraState.getD defaultCameraState

/-- `const size = Math.min(width, height);` -/
def squareSize (width height : Nat) : Nat := min width height

/-- ```js
const targetSize = size > CAPTURE_CONFIG.maxWidth ? CAPTURE_CONFIG.maxWidth : size;
```
-/
def targetSize (width height : Nat) : Nat :=
  if squareSize width height > CAPTURE_CONFIG.maxWidth then CAPTURE_CONFIG.maxWidth
  else squareSize width height

/-- The result of `captureFrame` in `camera-capture.js`: a JPEG blob whose
pixel grid is the square canvas.  The camera state the routine read (it only
logs it; see `capturedPixelAt` for the draw) is exposed as a field so that
properties about which state the capture ran under can be stated. -/
structure CaptureBlob where
  width : Nat
  height : Nat
  usedState : CameraState
  deriving Repr, DecidableEq

/-- `captureFrame(videoElement)` from `camera-capture.js`, geometry part.

```js
const width = videoElement.videoWidth;
const height = videoElement.videoHeight;
if (!width || !height) return Promise.resolve(null);
const size = Math.min(width, height);
...
canvas.width = targetSize; canvas.height = targetSize;
const cameraState = window.cameraState || { isFrontCamera: false, isMirrored: false };
...
canvas.toBlob((blob) => resolve(blob), 'image/jpeg', CAPTURE_CONFIG.imageQuality);
```
Returns `none` exactly when the video has no decoded dimensions yet; the
successful branch always resolves with the square canvas encoding. -/
def captureFrame (windowCameraState : Option CameraState)
    (videoWidth videoHeight : Nat) : Option CaptureBlob :=
  if videoWidth = 0 ∨ videoHeight = 0 then none
  else
    some { width := targetSize videoWidth videoHeight
         , height := targetSize videoWidth videoHeight
         , usedState := effectiveCameraState windowCameraState }

/-- Pixel sampling of the `drawImage` call in `captureFrame`
(`camera-capture.js`):

```js
const ctx = canvas.getContext('2d');
ctx.drawImage(videoElement,
  startX, startY, size, size,   // source rectangle (crop)
  0, 0, targetSize, targetSize  // destination rectangle
);
```

No transform (no `ctx.translate` / `ctx.scale`) is installed on the context
before the draw, so destination pixel `(i, j)` is sourced from the centred
crop rectangle with no reflection, for any camera state.  The sampling is
modelled for draws that involve no resampling — `targetSize = size` and
even crop offsets (`width - size` and `height - size` even) — which is all
the concrete evaluations below use.  `startX = centerX - size/2 =
(width - size)/2`, and likewise `startY`. -/
def capturedPixelAt (windowCameraState : Option CameraState)
    (frame : Nat → Nat → Nat) (width height i j : Nat) : Nat :=
  frame ((width - squareSize width height) / 2 + i)
        ((height - squareSize width height) / 2 + j)

/-- What the mirroring policy of the spec demands of a mirrored capture:
destination pixel `(i, j)` holds the crop's pixel at the horizontally
flipped column `size - 1 - i`.  This definition follows the spec's words
("the captured bytes must also appear mirrored"), to be compared with
`capturedPixelAt`. -/
def mirroredCropPixelAt (frame : Nat → Nat → Nat) (width height i j : Nat) : Nat :=
  frame ((width - squareSize width height) / 2 + (squareSize width height - 1 - i))
        ((height - squareSize width height) / 2 + j)

/-! ### Camera acquisition (`main.js`)

State touched by `startCamera` / `stopCurrentStream`: the module-level
`currentStream`, the sink's `videoElement.srcObject`, and the hardware
tracks.  A stream is modelled by the list of its track ids; a call to
`track.stop()` is recorded by appending the id to `stoppedTracks`. -/

structure CamPageState where
  currentStream : Option (List Nat)
  srcObject : Option (List Nat)
  stoppedTracks : List Nat
  deriving Repr, DecidableEq

/-- ```js
function stopCurrentStream() {
  if (currentStream) {
    currentStream.getTracks().forEach(track => { ... track.stop(); });
    if (videoElement.srcObject) { videoElement.srcObject = null; }
    currentStream = null;
  }
}
```
-/
def stopCurrentStream (s : CamPageState) : CamPageState :=
  match s.currentStream with
  | some tracks =>
      { currentStream := none
      , srcObject := none
      , stoppedTracks := s.stoppedTracks ++ tracks }
  | none => s

/-- Outcome of the `getUserMedia` attempts in `startCamera`: the exact
`facingMode` constraint succeeds, or it fails and the relaxed constraint
succeeds, or both fail (the outer `catch`). -/
inductive AcqOutcome
  | exactOk (tracks : List Nat)
  | relaxedOk (tracks : List Nat)
  | bothFail
  deriving Repr, DecidableEq

/-- Observable events of one `startCamera` run, in program order:
stopping a track of the previous stream, clearing the sink,
issuing a `getUserMedia` request, binding the sink to a stream. -/
inductive CamEvent
  | stopTrack (id : Nat)
  | clearSink
  | requestStream
  | bindSink (tracks : List Nat)
  deriving Repr, DecidableEq

/-- Events that release the previous session (a `track.stop()` call or the
`srcObject = null` reset). -/
def isTeardown : CamEvent → Bool
  | CamEvent.stopTrack _ => true
  | CamEvent.clearSink => true
  | _ => false

/-- Events that acquire or bind the new session (a `getUserMedia` call or
the `srcObject = currentStream` binding). -/
def isAcquisition : CamEvent → Bool
  | CamEvent.requestStream => true
  | CamEvent.bindSink _ => true
  | _ => false

/-- The events `stopCurrentStream` performs. -/
def stopEvents (s : CamPageState) : List CamEvent :=
  match s.currentStream with
  | some tracks => tracks.map CamEvent.stopTrack ++ [CamEvent.clearSink]
  | none => []

/-- ```js
async function startCamera(useRear = true) {
  stopCurrentStream();
  usingRearCamera = useRear;
  ...
  try {
    try { currentStream = await navigator.mediaDevices.getUserMedia(constraints); }
    catch (exactError) { ... currentStream = await navigator.mediaDevices.getUserMedia(constraints); }
    videoElement.srcObject = currentStream;
    updateMirroringState(!useRear);
    ...
  } catch (error) { ... }
}
```
Returns the post state together with the event trace of the run.  On the
double-failure path `currentStream` holds whatever the failing second
`getUserMedia` left: the first assignment never happened, so it stays
`null` (it was nulled by `stopCurrentStream`). -/
def startCamera (s : CamPageState) (outcome : AcqOutcome) :
    CamPageState × List CamEvent :=
  let s₁ := stopCurrentStream s
  match outcome with
  | AcqOutcome.exactOk tracks =>
      ({ s₁ with currentStream := some tracks, srcObject := some tracks },
       stopEvents s ++ [CamEvent.requestStream, CamEvent.bindSink tracks])
  | AcqOutcome.relaxedOk tracks =>
      ({ s₁ with currentStream := some tracks, srcObject := some tracks },
       stopEvents s ++ [CamEvent.requestStream, CamEvent.requestStream,
                        CamEvent.bindSink tracks])
  | AcqOutcome.bothFail =>
      (s₁, stopEvents s ++ [CamEvent.requestStream, CamEvent.requestStream])

/-- Reachable-state invariant of `main.js`: the sink is bound exactly to the
module-level current stream (both start `null`; `startCamera` is the only
writer and always writes them together). -/
def CamWellFormed (s : CamPageState) : Prop :=
  s.srcObject = s.currentStream

instance (s : CamPageState) : Decidable (CamWellFormed s) := by
  unfold CamWellFormed; infer_instance

/-! ### Upload client (`ai-integration.js` multipart variant)

`analyzeImage` and the analyze click-handler's response normalization. -/

/-- One modality entry of the response envelope
(`{ content: ..., format: ... }`); fields are optional because the client
must accept arbitrary server responses. -/
structure ModalityEntry where
  content : Option String
  format : Option String
  deriving Repr, DecidableEq

/-- A server response as the client sees it after `response.json()`: every
field may be absent.  `modalities` is an association list of modality key to
entry. -/
structure VisionResponse where
  version : Option String
  modalities : Option (List (String × ModalityEntry))
  primary : Option String
  text : Option String
  result : Option String
  deriving Repr, DecidableEq

/-- JavaScript truthiness of an optional string field: absent (`undefined`)
and `""` are falsy. -/
def jsTruthy : Option String → Bool
  | some s => !s.isEmpty
  | none => false

/-- `result.modalities[result.primary]` — `undefined` unless both fields are
present and the key is bound. -/
def modalityAt (r : VisionResponse) : Option ModalityEntry :=
  match r.modalities, r.primary with
  | some mods, some p => mods.lookup p
  | _, _ => none

/-- The sentinel shown when no text could be extracted. -/
def noAnalysisSentinel : String := "No analysis text returned from the server."

/-- `analysisText` as computed by the analyze click-handler:

```js
let analysisText = '';
if (result.modalities && result.primary && result.modalities[result.primary]) {
  const primaryModality = result.modalities[result.primary];
  analysisText = primaryModality.content || '';
} else if (result.text) {
  analysisText = result.text;
}
```
`result.modalities` is truthy iff present (an object, even empty, is
truthy); `result.primary` is truthy iff a non-empty string; the indexing is
truthy iff the key is bound. -/
def analysisTextOf (r : VisionResponse) : String :=
  if r.modalities.isSome && jsTruthy r.primary && (modalityAt r).isSome then
    match modalityAt r with
    | some m => m.content.getD ""
    | none => ""
  else if jsTruthy r.text then r.text.getD ""
  else ""

/-- `aiResponse.textContent = analysisText || 'No analysis text returned from the server.';` -/
def displayedAnalysisText (r : VisionResponse) : String :=
  if (analysisTextOf r).isEmpty then noAnalysisSentinel else analysisTextOf r

/-- The extraction the spec describes, for comparison with
`displayedAnalysisText`: prefer `modalities[primary].content`, fall back to
`text`, fall back to `result`, fall back to the sentinel. -/
def specExtractText (r : VisionResponse) : String :=
  match modalityAt r with
  | some m => m.content.getD ""
  | none =>
      match r.text with
      | some t => t
      | none =>
          match r.result with
          | some t => t
          | none => noAnalysisSentinel

/-- The extraction order the code actually implements, written in the
spec's style for comparison with `displayedAnalysisText`: prefer
`modalities[primary].content` when `modalities` is present, `primary` is a
non-empty key and the key is bound (an empty or missing `content` then
yields the sentinel, not the `text` fallback); otherwise fall back to a
non-empty top-level `text`; otherwise the sentinel.  The top-level `result`
field is never consulted. -/
def specExtractTextAmended (r : VisionResponse) : String :=
  let textFallback : String :=
    match r.text with
    | some t => if t.isEmpty then noAnalysisSentinel else t
    | none => noAnalysisSentinel
  match r.modalities, r.primary with
  | some mods, some p =>
      if p.isEmpty then textFallback
      else
        match mods.lookup p with
        | some m =>
            (match m.content with
             | some c => if c.isEmpty then noAnalysisSentinel else c
             | none => noAnalysisSentinel)
        | none => textFallback
  | _, _ => textFallback

/-- The error message `analyzeImage` throws on a non-2xx response:

```js
if (!response.ok) {
  ...
  throw new Error(`Server returned ${response.status}: ${response.statusText}`);
}
```
It is built from the status line only; the response body is read purely for
`console.error`. -/
def clientFailureMessage (status : Nat) (statusText : String) : String :=
  "Server returned " ++ toString status ++ ": " ++ statusText

/-- The `fetch` options used by both `analyzeImage` variants carry no
timeout and no abort signal: the client-side wait is unbounded. -/
def clientFetchTimeoutMs : Option Nat := none

/-! ### Analysis proxy (the Vercel serverless `handler`, multipart variant)

The JSON-only deployment differs from it only by missing the multipart
branch; the data-URL normalization, the outbound request, the success
envelope and the catch cascade are identical, so the model below covers
both.  Filesystem and network effects are explicit: the multipart parse
result and the remote call's outcome are inputs, and the handler yields the
outbound request it issued (if any), the HTTP response, and the temporary
files still on disk when it returns. -/

/-- Character-level substring containment: does `pat` occur (contiguously)
inside `s`? -/
def charsContain : List Char → List Char → Bool
  | [], pat => pat.isEmpty
  | c :: t, pat => pat.isPrefixOf (c :: t) || charsContain t pat

/-- `s.includes(pat)` of JavaScript, for the non-empty patterns the handler
tests (`'API key'`, `'timeout'`). -/
def jsIncludes (s pat : String) : Bool :=
  charsContain s.data pat.data

/-- `s.startsWith(pre)` of JavaScript, on the underlying character
sequences. -/
def jsStartsWith (s pre : String) : Bool :=
  pre.data.isPrefixOf s.data

instance : DecidableEq (Except String String) := fun a b =>
  match a, b with
  | Except.ok x, Except.ok y =>
      if h : x = y then isTrue (by simp [h]) else isFalse (by simp [h])
  | Except.error x, Except.error y =>
      if h : x = y then isTrue (by simp [h]) else isFalse (by simp [h])
  | Except.ok _, Except.error _ => isFalse (by simp)
  | Except.error _, Except.ok _ => isFalse (by simp)

/-- A file stored on disk by the multipart parser.  `readResult` is the
outcome of `fs.readFile` on it: `Except.ok b64` is the base64 text of its
bytes, `Except.error msg` models a read that throws with `message = msg`. -/
structure UploadedFile where
  path : String
  readResult : Except String String
  deriving Repr, DecidableEq

/-- Outcome of `multiparty`'s `form.parse`: an error, or the parsed form
with `files.image[0]` if an `image` file field was present (the model
tracks only that field; it is the only file the client ever sends). -/
inductive MultipartParse
  | err (message : String)
  | ok (image : Option UploadedFile)
  deriving Repr, DecidableEq

/-- The request body as the handler dispatches on `content-type`. -/
inductive ReqBody
  | multipart (parse : MultipartParse)
  | json (imageData : Option String)
  | other
  deriving Repr, DecidableEq

/-- Outcome of the `axios.post` to the vision API.
`ok none` models a 2xx reply whose JSON fails the
`data.choices[0].message` structure validation (the handler then throws
`'Unexpected response structure from OpenAI API'`).
`fail resp code message` models a rejected promise: `resp` is
`error.response` (status and a rendering of its data) when the remote
answered non-2xx, `code` is `error.code` (`'ECONNABORTED'` on timeout), and
`message` is `error.message`. -/
inductive RemoteOutcome
  | ok (analysisText : Option String)
  | fail (resp : Option (Nat × String)) (code : Option String) (message : String)
  deriving Repr, DecidableEq

/-- The single chat-completion request the handler forwards. -/
structure OutboundRequest where
  url : String
  authHeader : String
  model : String
  promptText : String
  imageUrl : String
  maxTokens : Nat
  timeoutMs : Nat
  deriving Repr, DecidableEq

/-- The 200 envelope (`modalities` plus legacy mirrors). -/
structure SuccessBody where
  version : String
  modalities : List (String × ModalityEntry)
  primary : String
  text : String
  result : String
  deriving Repr, DecidableEq

/-- A response body: an error object (`error`, optional `details`, optional
`hint`) or the success envelope.  (The dev-only `stack` field of the
generic 500 is omitted: it is `undefined` outside development builds and no
property below concerns it.) -/
inductive ProxyBody
  | errorBody (error : String) (details : Option String) (hint : Option String)
  | success (body : SuccessBody)
  deriving Repr, DecidableEq

structure ProxyResponse where
  status : Nat
  body : ProxyBody
  deriving Repr, DecidableEq

/-- ```js
// If it's just base64 without the data URL prefix, add it
if (processedImageData.startsWith('data:image')) { /* unchanged */ }
else { processedImageData = `data:image/jpeg;base64,${processedImageData}`; }
```
-/
def processImageData (imageData : String) : String :=
  if jsStartsWith imageData "data:image" then imageData
  else "data:image/jpeg;base64," ++ imageData

/-- The success envelope built for `res.status(200).json({...})`:
`modalities.text.content`, `text` and `result` all carry `analysisText`. -/
def successEnvelope (analysisText : String) : SuccessBody :=
  { version := "1.0"
  , modalities := [("text", { content := some analysisText, format := some "plain_text" })]
  , primary := "text"
  , text := analysisText
  , result := analysisText }

/-- The `catch (error)` cascade at the bottom of the handler:

```js
if (error.response) { return res.status(500).json({ error: `OpenAI API error (...): ...`, details: ... }); }
if (error.message.includes('API key')) { return res.status(500).json({ error: 'Missing or invalid OpenAI API key...', hint: ... }); }
if (error.code === 'ECONNABORTED' || error.message.includes('timeout')) { return res.status(500).json({ error: 'Request to OpenAI timed out...', hint: ... }); }
return res.status(500).json({ error: `Failed to analyze image: ${error.message}` });
```
-/
def catchResponse (resp : Option (Nat × String)) (code : Option String)
    (message : String) : ProxyResponse :=
  match resp with
  | some (status, data) =>
      { status := 500
      , body := ProxyBody.errorBody
          ("OpenAI API error (" ++ toString status ++ "): " ++ data) (some data) none }
  | none =>
      if jsIncludes message "API key" then
        { status := 500
        , body := ProxyBody.errorBody
            "Missing or invalid OpenAI API key. Please check your environment variables."
            none
            (some "Make sure OPENAI_API_KEY is properly set in your Vercel project settings.") }
      else if code == some "ECONNABORTED" || jsIncludes message "timeout" then
        { status := 500
        , body := ProxyBody.errorBody
            "Request to OpenAI timed out. The image might be too large or the service might be experiencing high load."
            none
            (some "Try with a smaller image or retry later.") }
      else
        { status := 500
        , body := ProxyBody.errorBody ("Failed to analyze image: " ++ message) none none }

/-- The remote call and everything after it: builds the outbound request
(bearer credential in the `Authorization` header, fixed prompt, 300-token
budget, 30 s timeout), then returns the 200 envelope or the catch
cascade's 500. -/
def callRemoteAndRespond (imageData : String) (apiKey : String)
    (remote : RemoteOutcome) : Option OutboundRequest × ProxyResponse :=
  let processedImageData := processImageData imageData
  let outbound : OutboundRequest :=
    { url := "https://api.openai.com/v1/chat/completions"
    , authHeader := "Bearer " ++ apiKey
    , model := "gpt-4o"
    , promptText := "What's in this image? Describe what you see briefly."
    , imageUrl := processedImageData
    , maxTokens := 300
    , timeoutMs := 30000 }
  match remote with
  | RemoteOutcome.ok (some analysisText) =>
      (some outbound, { status := 200, body := ProxyBody.success (successEnvelope analysisText) })
  | RemoteOutcome.ok none =>
      -- `throw new Error('Unexpected response structure from OpenAI API')`,
      -- caught below with no `error.response` and no `error.code`.
      (some outbound, catchResponse none none "Unexpected response structure from OpenAI API")
  | RemoteOutcome.fail resp code message =>
      (some outbound, catchResponse resp code message)

/-- The serverless `handler(req, res)` (multipart variant).  Result:
the outbound request it issued (`none` when it returned before calling the
remote model), the HTTP response, and the temporary upload files still on
disk when it returns.

```js
if (req.method !== 'POST') return res.status(405).json({ error: 'Method not allowed' });
...
if (contentType.includes('multipart/form-data')) {
  try {
    const { files } = await parseFormData(req);
    if (!files.image || !files.image[0]) return res.status(400).json({ error: 'No image file provided in FormData' });
    const base64Image = await convertFileToBase64(imageFile.path);
    imageData = `data:image/jpeg;base64,${base64Image}`;
    fs.unlinkSync(imageFile.path);
  } catch (parseError) {
    return res.status(400).json({ error: `Error processing image upload: ${parseError.message}` });
  }
} else if (contentType.includes('application/json')) { ... }
else { return res.status(400).json({ error: 'Unsupported content type', ... }); }
```
The temp file exists from the moment the parse stores it; the only
`unlink` is the one on the line after a successful base64 conversion. -/
def handler (method : String) (body : ReqBody) (apiKey : String)
    (remote : RemoteOutcome) :
    Option OutboundRequest × ProxyResponse × List String :=
  if method ≠ "POST" then
    (none, { status := 405, body := ProxyBody.errorBody "Method not allowed" none none }, [])
  else
    match body with
    | ReqBody.multipart (MultipartParse.err message) =>
        -- `form.parse` rejected; nothing was stored for the `image` field.
        (none,
         { status := 400
         , body := ProxyBody.errorBody
             ("Error processing image upload: " ++ message) none none },
         [])
    | ReqBody.multipart (MultipartParse.ok none) =>
        (none,
         { status := 400
         , body := ProxyBody.errorBody "No image file provided in FormData" none none },
         [])
    | ReqBody.multipart (MultipartParse.ok (some imageFile)) =>
        (match imageFile.readResult with
         | Except.error message =>
             -- `convertFileToBase64` threw: the catch returns 400 and the
             -- stored temp file is never unlinked.
             (none,
              { status := 400
              , body := ProxyBody.errorBody
                  ("Error processing image upload: " ++ message) none none },
              [imageFile.path])
         | Except.ok base64Image =>
             -- `fs.unlinkSync(imageFile.path)` runs before the remote call.
             let (outbound, resp) :=
               callRemoteAndRespond ("data:image/jpeg;base64," ++ base64Image) apiKey remote
             (outbound, resp, []))
    | ReqBody.json imageData =>
        (match imageData with
         | none =>
             (none,
              { status := 400
              , body := ProxyBody.errorBody "No image data provided in request body" none none },
              [])
         | some jsonData =>
             if jsonData.isEmpty then
               -- `if (!jsonData)` — the empty string is falsy.
               (none,
                { status := 400
                , body := ProxyBody.errorBody "No image data provided in request body" none none },
                [])
             else
               let (outbound, resp) := callRemoteAndRespond jsonData apiKey remote
               (outbound, resp, []))
    | ReqBody.other =>
        (none,
         { status := 400
         , body := ProxyBody.errorBody "Unsupported content type" none none },
         [])

/-- The image string the handler extracts from the request body before the
data-URL normalization: the multipart path arrives already prefixed
(`data:image/jpeg;base64,` + file contents), the JSON path passes
`req.body.imageData` through as is; `none` on every path on which the
handler returns before reaching the normalization. -/
def extractedImageData : ReqBody → Option String
  | ReqBody.multipart (MultipartParse.ok (some f)) =>
      (match f.readResult with
       | Except.ok base64Image => some ("data:image/jpeg;base64," ++ base64Image)
       | Except.error _ => none)
  | ReqBody.json (some s) => if s.isEmpty then none else some s
  | _ => none

end CameraApp


/-! ## Theorems -/

namespace CameraApp

/-- Helper: `targetSize` is the capped minimum dimension. -/
theorem targetSize_eq (w h : Nat) :
    targetSize w h = if min w h > 800 then 800 else min w h := rfl

/-- C3: for every video source with non-zero intrinsic dimensions `(w, h)`,
`captureFrame` produces a square image (`width = height`) whose side equals
`min w h` when `min w h ≤ 800` (the configured `maxWidth`) and `800`
otherwise — scaled down, never up. -/
theorem c3_capture_square_bounded (st : Option CameraState) (w h : Nat)
    (hw : 0 < w) (hh : 0 < h) :
    ∃ b : CaptureBlob, captureFrame st w h = some b
      ∧ b.width = b.height
      ∧ (min w h ≤ 800 → b.width = min w h)
      ∧ (800 < min w h → b.width = CAPTURE_CONFIG.maxWidth) := by
  refine ⟨{ width := targetSize w h, height := targetSize w h
          , usedState := effectiveCameraState st }, ?_, rfl, ?_, ?_⟩
  · unfold captureFrame
    rw [if_neg]
    omega
  · intro hle
    have hn : ¬ (min w h > 800) := by omega
    rw [targetSize_eq, if_neg hn]
  · intro hgt
    rw [targetSize_eq, if_pos hgt]
    rfl

/-- Witness for `c3_capture_square_bounded` at a concrete 1024×768 source. -/
theorem c3_capture_square_bounded_witness :
    0 < 1024 ∧ 0 < 768 ∧
    ∃ b : CaptureBlob, captureFrame none 1024 768 = some b
      ∧ b.width = b.height
      ∧ (min 1024 768 ≤ 800 → b.width = min 1024 768)
      ∧ (800 < min 1024 768 → b.width = CAPTURE_CONFIG.maxWidth) :=
  ⟨by decide, by decide,
   c3_capture_square_bounded none 1024 768 (by decide) (by decide)⟩

/-- C10: when `window.cameraState` is unset, `captureFrame` proceeds with
the rear-facing unmirrored default (`isFrontCamera = false`,
`isMirrored = false`) and still returns a complete square blob; the
produced geometry is moreover identical to what any populated camera state
would give — capture never fails merely because the side channel was never
populated. -/
theorem c10_capture_default_state (w h : Nat) (hw : 0 < w) (hh : 0 < h) :
    ∃ b : CaptureBlob, captureFrame none w h = some b
      ∧ b.usedState.isFrontCamera = false
      ∧ b.usedState.isMirrored = false
      ∧ b.width = b.height
      ∧ (∀ st : Option CameraState, ∃ b' : CaptureBlob,
          captureFrame st w h = some b' ∧ b'.width = b.width ∧ b'.height = b.height) := by
  have hcond : ¬ (w = 0 ∨ h = 0) := by omega
  refine ⟨{ width := targetSize w h, height := targetSize w h
          , usedState := effectiveCameraState none }, ?_, rfl, rfl, rfl, ?_⟩
  · unfold captureFrame
    rw [if_neg hcond]
  · intro st
    refine ⟨{ width := targetSize w h, height := targetSize w h
            , usedState := effectiveCameraState st }, ?_, rfl, rfl⟩
    unfold captureFrame
    rw [if_neg hcond]

/-- Witness for `c10_capture_default_state` at a concrete 640×480 source. -/
theorem c10_capture_default_state_witness :
    0 < 640 ∧ 0 < 480 ∧
    ∃ b : CaptureBlob, captureFrame none 640 480 = some b
      ∧ b.usedState.isFrontCamera = false
      ∧ b.usedState.isMirrored = false
      ∧ b.width = b.height
      ∧ (∀ st : Option CameraState, ∃ b' : CaptureBlob,
          captureFrame st 640 480 = some b' ∧ b'.width = b.width ∧ b'.height = b.height) :=
  ⟨by decide, by decide,
   c10_capture_default_state 640 480 (by decide) (by decide)⟩

/-- C2 (evaluation at the failing input): with the front camera active and
the preview mirrored (`cameraState = {isFrontCamera: true, isMirrored:
true}`), a 2×2 frame whose pixel value is its x-coordinate is captured
unmirrored — `captureFrame` installs no horizontal flip on the canvas, so
destination pixel `(0,0)` holds source column 0, whereas the mirroring
policy demands source column 1; the camera state has no effect at all on
the sampled pixels. -/
theorem c2_capture_unmirrored_eval :
    capturedPixelAt (some { isFrontCamera := true, isMirrored := true })
        (fun x _ => x) 2 2 0 0 = 0
    ∧ mirroredCropPixelAt (fun x _ => x) 2 2 0 0 = 1
    ∧ capturedPixelAt (some { isFrontCamera := true, isMirrored := true })
        (fun x _ => x) 2 2 0 0
        ≠ mirroredCropPixelAt (fun x _ => x) 2 2 0 0
    ∧ capturedPixelAt (some { isFrontCamera := true, isMirrored := true })
        (fun x _ => x) 2 2 0 0
        = capturedPixelAt none (fun x _ => x) 2 2 0 0 :=
  ⟨rfl, rfl, by decide, rfl⟩

end CameraApp

namespace CameraApp

/-- Helper: the empty string is empty (a reduction `simp` lacks). -/
theorem empty_string_isEmpty : "".isEmpty = true := rfl

/-- C1 (counterexample): a response carrying only a top-level `result`
field.  The claim's preference order says the client should display that
`result` value (`"Z"`, as `specExtractText` computes); the click-handler
instead displays the sentinel — its fallback chain stops at `text` and
never consults `result`. -/
theorem c1_counterexample :
    displayedAnalysisText
        { version := none, modalities := none, primary := none
        , text := none, result := some "Z" } = noAnalysisSentinel
    ∧ specExtractText
        { version := none, modalities := none, primary := none
        , text := none, result := some "Z" } = "Z"
    ∧ ¬ displayedAnalysisText
          { version := none, modalities := none, primary := none
          , text := none, result := some "Z" }
        = specExtractText
            { version := none, modalities := none, primary := none
            , text := none, result := some "Z" } :=
  ⟨rfl, rfl, by decide⟩

/-- C1 (amended): for every server response the click-handler's displayed
text is computed totally (never a thrown exception) by this deterministic
preference order: `modalities[primary].content` when `modalities` is
present, `primary` a non-empty bound key (an empty or absent `content` then
yields the sentinel); otherwise a non-empty top-level `text`; otherwise the
explicit sentinel — the top-level `result` field is never consulted. -/
theorem c1_normalization_amended (r : VisionResponse) :
    displayedAnalysisText r = specExtractTextAmended r := by
  obtain ⟨v, mods, p, t, res⟩ := r
  rcases mods with _ | ms
  · rcases t with _ | tt
    · rcases p with _ | pp <;> rfl
    · rcases p with _ | pp <;> by_cases hE : tt.isEmpty <;>
        simp [displayedAnalysisText, analysisTextOf, specExtractTextAmended,
          modalityAt, jsTruthy, empty_string_isEmpty, hE]
  · rcases p with _ | pp
    · rcases t with _ | tt
      · rfl
      · by_cases hE : tt.isEmpty <;>
          simp [displayedAnalysisText, analysisTextOf, specExtractTextAmended,
            modalityAt, jsTruthy, empty_string_isEmpty, hE]
    · by_cases hpp : pp.isEmpty
      · rcases t with _ | tt
        · simp [displayedAnalysisText, analysisTextOf, specExtractTextAmended,
            modalityAt, jsTruthy, empty_string_isEmpty, hpp]
        · by_cases hE : tt.isEmpty <;>
            simp [displayedAnalysisText, analysisTextOf, specExtractTextAmended,
              modalityAt, jsTruthy, empty_string_isEmpty, hpp, hE]
      · cases hlk : ms.lookup pp with
        | none =>
          rcases t with _ | tt
          · simp [displayedAnalysisText, analysisTextOf, specExtractTextAmended,
              modalityAt, jsTruthy, empty_string_isEmpty, hpp, hlk]
          · by_cases hE : tt.isEmpty <;>
              simp [displayedAnalysisText, analysisTextOf, specExtractTextAmended,
                modalityAt, jsTruthy, empty_string_isEmpty, hpp, hlk, hE]
        | some m =>
          rcases m with ⟨c, f⟩
          rcases c with _ | cc
          · simp [displayedAnalysisText, analysisTextOf, specExtractTextAmended,
              modalityAt, jsTruthy, empty_string_isEmpty, hpp, hlk]
          · by_cases hcE : cc.isEmpty <;>
              simp [displayedAnalysisText, analysisTextOf, specExtractTextAmended,
                modalityAt, jsTruthy, empty_string_isEmpty, hpp, hlk, hcE]

end CameraApp

namespace CameraApp

/-- Helper: a trace that is teardown events followed by acquisition events,
split at the teardown part's length. -/
theorem trace_split (A B : List CamEvent)
    (hA : ∀ e ∈ A, isTeardown e = true) (hB : ∀ e ∈ B, isAcquisition e = true) :
    (∀ e ∈ (A ++ B).take A.length, isTeardown e = true)
    ∧ (∀ e ∈ (A ++ B).drop A.length, isAcquisition e = true) := by
  rw [List.take_left, List.drop_left]
  exact ⟨hA, hB⟩

/-- Helper: every event `stopCurrentStream` emits is a teardown event. -/
theorem stopEvents_teardown (s : CamPageState) :
    ∀ e ∈ stopEvents s, isTeardown e = true := by
  intro e he
  unfold stopEvents at he
  rcases hcs : s.currentStream with _ | tracks <;> rw [hcs] at he
  · simp at he
  · rcases List.mem_append.1 he with hm | hm
    · obtain ⟨t, _, rfl⟩ := List.mem_map.1 hm
      rfl
    · rcases List.mem_singleton.1 hm with rfl
      rfl

/-- Helper: the exact-success acquisition suffix is acquisition-only. -/
theorem acq_exact (ts : List Nat) :
    ∀ e ∈ [CamEvent.requestStream, CamEvent.bindSink ts], isAcquisition e = true := by
  intro e he
  rcases List.mem_cons.1 he with rfl | he
  · rfl
  · rcases List.mem_singleton.1 he with rfl
    rfl

/-- Helper: the relaxed-success acquisition suffix is acquisition-only. -/
theorem acq_relaxed (ts : List Nat) :
    ∀ e ∈ [CamEvent.requestStream, CamEvent.requestStream, CamEvent.bindSink ts],
      isAcquisition e = true := by
  intro e he
  rcases List.mem_cons.1 he with rfl | he
  · rfl
  · rcases List.mem_cons.1 he with rfl | he
    · rfl
    · rcases List.mem_singleton.1 he with rfl
      rfl

/-- Helper: the double-failure acquisition suffix is acquisition-only. -/
theorem acq_fail :
    ∀ e ∈ [CamEvent.requestStream, CamEvent.requestStream], isAcquisition e = true := by
  intro e he
  rcases List.mem_cons.1 he with rfl | he
  · rfl
  · rcases List.mem_singleton.1 he with rfl
    rfl

/-- C7: on every invocation of `startCamera` — for any well-formed prior
page state and any acquisition outcome — every track of the previously
active stream is stopped and the sink's `srcObject` is cleared before any
`getUserMedia` request is issued or the sink is bound (the event trace
splits into a teardown part containing every `stopTrack` and the
`clearSink`, followed by a purely acquisition part), and the resulting
state again binds the sink exactly to the (single) current stream: at most
one active stream per sink on all exit paths. -/
theorem c7_single_stream_per_sink (s : CamPageState) (outcome : AcqOutcome)
    (hwf : CamWellFormed s) :
    CamWellFormed (startCamera s outcome).1
    ∧ (∀ tracks, s.currentStream = some tracks →
        ∀ t ∈ tracks, t ∈ (startCamera s outcome).1.stoppedTracks)
    ∧ ∃ n : Nat,
        (∀ e ∈ ((startCamera s outcome).2).take n, isTeardown e = true)
        ∧ (∀ e ∈ ((startCamera s outcome).2).drop n, isAcquisition e = true)
        ∧ (∀ tracks, s.currentStream = some tracks →
            (∀ t ∈ tracks, CamEvent.stopTrack t ∈ ((startCamera s outcome).2).take n)
            ∧ CamEvent.clearSink ∈ ((startCamera s outcome).2).take n) := by
  obtain ⟨cs, so, st⟩ := s
  have hacq : ∀ (B : List CamEvent), (∀ e ∈ B, isAcquisition e = true) →
      ∃ n : Nat,
        (∀ e ∈ ((stopEvents ⟨cs, so, st⟩ ++ B)).take n, isTeardown e = true)
        ∧ (∀ e ∈ ((stopEvents ⟨cs, so, st⟩ ++ B)).drop n, isAcquisition e = true)
        ∧ (∀ tracks, cs = some tracks →
            (∀ t ∈ tracks,
              CamEvent.stopTrack t ∈ ((stopEvents ⟨cs, so, st⟩ ++ B)).take n)
            ∧ CamEvent.clearSink ∈ ((stopEvents ⟨cs, so, st⟩ ++ B)).take n) := by
    intro B hB
    refine ⟨(stopEvents ⟨cs, so, st⟩).length, ?_, ?_, ?_⟩
    · exact (trace_split _ B (stopEvents_teardown _) hB).1
    · exact (trace_split _ B (stopEvents_teardown _) hB).2
    · intro tracks htracks
      rw [List.take_left]
      constructor
      · intro t ht
        unfold stopEvents
        simp only [htracks]
        exact List.mem_append_left _ (List.mem_map.2 ⟨t, ht, rfl⟩)
      · unfold stopEvents
        simp only [htracks]
        exact List.mem_append_right _ (List.mem_singleton.2 rfl)
  rcases cs with _ | tracks <;> rcases outcome with ts | ts | _
  · refine ⟨rfl, ?_, hacq _ (acq_exact ts)⟩
    intro tr htr
    exact Option.noConfusion htr
  · refine ⟨rfl, ?_, hacq _ (acq_relaxed ts)⟩
    intro tr htr
    exact Option.noConfusion htr
  · refine ⟨hwf, ?_, hacq _ acq_fail⟩
    intro tr htr
    exact Option.noConfusion htr
  · refine ⟨rfl, ?_, hacq _ (acq_exact ts)⟩
    intro tr htr t ht
    cases Option.some.inj htr
    exact List.mem_append_right _ ht
  · refine ⟨rfl, ?_, hacq _ (acq_relaxed ts)⟩
    intro tr htr t ht
    cases Option.some.inj htr
    exact List.mem_append_right _ ht
  · refine ⟨rfl, ?_, hacq _ acq_fail⟩
    intro tr htr t ht
    cases Option.some.inj htr
    exact List.mem_append_right _ ht

/-- Witness for `c7_single_stream_per_sink`: switching away from an active
front-camera stream with tracks `[1, 2]` to a new stream with track `[3]`
under a successful exact-constraint acquisition. -/
theorem c7_single_stream_per_sink_witness :
    CamWellFormed { currentStream := some [1, 2], srcObject := some [1, 2]
                  , stoppedTracks := [] }
    ∧ (CamWellFormed (startCamera
          { currentStream := some [1, 2], srcObject := some [1, 2]
          , stoppedTracks := [] } (AcqOutcome.exactOk [3])).1
      ∧ (∀ tracks,
          ({ currentStream := some [1, 2], srcObject := some [1, 2]
           , stoppedTracks := [] } : CamPageState).currentStream = some tracks →
          ∀ t ∈ tracks, t ∈ (startCamera
            { currentStream := some [1, 2], srcObject := some [1, 2]
            , stoppedTracks := [] } (AcqOutcome.exactOk [3])).1.stoppedTracks)
      ∧ ∃ n : Nat,
          (∀ e ∈ ((startCamera
              { currentStream := some [1, 2], srcObject := some [1, 2]
              , stoppedTracks := [] } (AcqOutcome.exactOk [3])).2).take n,
            isTeardown e = true)
          ∧ (∀ e ∈ ((startCamera
              { currentStream := some [1, 2], srcObject := some [1, 2]
              , stoppedTracks := [] } (AcqOutcome.exactOk [3])).2).drop n,
            isAcquisition e = true)
          ∧ (∀ tracks,
              ({ currentStream := some [1, 2], srcObject := some [1, 2]
               , stoppedTracks := [] } : CamPageState).currentStream = some tracks →
              (∀ t ∈ tracks, CamEvent.stopTrack t ∈ ((startCamera
                  { currentStream := some [1, 2], srcObject := some [1, 2]
                  , stoppedTracks := [] } (AcqOutcome.exactOk [3])).2).take n)
              ∧ CamEvent.clearSink ∈ ((startCamera
                  { currentStream := some [1, 2], srcObject := some [1, 2]
                  , stoppedTracks := [] } (AcqOutcome.exactOk [3])).2).take n)) :=
  ⟨by decide,
   c7_single_stream_per_sink
     { currentStream := some [1, 2], srcObject := some [1, 2], stoppedTracks := [] }
     (AcqOutcome.exactOk [3]) (by decide)⟩

end CameraApp

namespace CameraApp

/-- Helper: every branch of the handler's catch cascade answers HTTP 500. -/
theorem catchResponse_status (resp : Option (Nat × String)) (code : Option String)
    (message : String) : (catchResponse resp code message).status = 500 := by
  unfold catchResponse
  rcases resp with _ | ⟨s, d⟩
  · split_ifs <;> rfl
  · rfl

/-- Helper: appending makes a prefix (`jsStartsWith` form). -/
theorem jsStartsWith_append (pre s : String) : jsStartsWith (pre ++ s) pre = true := by
  unfold jsStartsWith
  rw [String.data_append, List.isPrefixOf_iff_prefix]
  exact List.prefix_append _ _

/-- Helper: a synthesized `data:image/jpeg;base64,` reference starts with
`data:image`. -/
theorem jsStartsWith_dataImage (s : String) :
    jsStartsWith ("data:image/jpeg;base64," ++ s) "data:image" = true := by
  unfold jsStartsWith
  rw [String.data_append, List.isPrefixOf_iff_prefix]
  refine ⟨"/jpeg;base64,".data ++ s.data, ?_⟩
  rw [← List.append_assoc]
  rfl

/-- C9: the response (and the on-disk outcome) of the proxy handler is
independent of the remote API credential: two runs on the same request and
the same remote outcome but different `OPENAI_API_KEY` values return
identical responses — the credential reaches only the `Authorization`
header of the outbound request, never any response body. -/
theorem c9_credential_independence (m : String) (b : ReqBody) (k₁ k₂ : String)
    (r : RemoteOutcome) :
    (handler m b k₁ r).2 = (handler m b k₂ r).2 := by
  unfold handler callRemoteAndRespond
  split
  · rfl
  · rcases b with pr | im | _
    · rcases pr with msg | img
      · rfl
      · rcases img with _ | ⟨path, rr⟩
        · rfl
        · rcases rr with msg | b64
          · rfl
          · rcases r with t | ⟨resp, code, msg⟩
            · rcases t with _ | t <;> rfl
            · rfl
    · rcases im with _ | s
      · rfl
      · rcases r with t | ⟨resp, code, msg⟩
        · rcases t with _ | t <;> by_cases he : s.isEmpty = true <;> simp [he]
        · by_cases he : s.isEmpty = true <;> simp [he]
    · rfl

/-- C6: every HTTP 200 response the proxy handler produces carries the
success envelope in which `primary = "text"`,
`modalities[primary].content`, `text` and `result` are all the same
string — the legacy flattened fields are never a separate source of
truth. -/
theorem c6_legacy_fields_mirror (m : String) (b : ReqBody) (k : String)
    (r : RemoteOutcome) (h200 : (handler m b k r).2.1.status = 200) :
    ∃ sb : SuccessBody, (handler m b k r).2.1.body = ProxyBody.success sb
      ∧ sb.primary = "text"
      ∧ sb.modalities.lookup sb.primary
          = some { content := some sb.text, format := some "plain_text" }
      ∧ sb.result = sb.text := by
  unfold handler callRemoteAndRespond at h200 ⊢
  by_cases hm : m ≠ "POST"
  · rw [if_pos hm] at h200
    exact absurd h200 (by decide)
  · rw [if_neg hm] at h200 ⊢
    rcases b with pr | im | _
    · rcases pr with msg | img
      · simp at h200
      · rcases img with _ | ⟨path, rr⟩
        · simp at h200
        · rcases rr with msg | b64
          · simp at h200
          · rcases r with t | ⟨resp, code, msg⟩
            · rcases t with _ | t
              · simp [catchResponse_status] at h200
              · exact ⟨successEnvelope t, rfl, rfl, rfl, rfl⟩
            · simp [catchResponse_status] at h200
    · rcases im with _ | s
      · simp at h200
      · by_cases he : s.isEmpty = true
        · simp [he] at h200
        · rcases r with t | ⟨resp, code, msg⟩
          · rcases t with _ | t
            · simp [he, catchResponse_status] at h200
            · refine ⟨successEnvelope t, ?_, rfl, rfl, rfl⟩
              simp [he]
          · simp [he, catchResponse_status] at h200
    · simp at h200

/-- Witness for `c6_legacy_fields_mirror`: a successful JSON-path run. -/
theorem c6_legacy_fields_mirror_witness :
    (handler "POST" (ReqBody.json (some "abc")) "k"
        (RemoteOutcome.ok (some "hi"))).2.1.status = 200
    ∧ ∃ sb : SuccessBody,
        (handler "POST" (ReqBody.json (some "abc")) "k"
            (RemoteOutcome.ok (some "hi"))).2.1.body = ProxyBody.success sb
        ∧ sb.primary = "text"
        ∧ sb.modalities.lookup sb.primary
            = some { content := some sb.text, format := some "plain_text" }
        ∧ sb.result = sb.text :=
  ⟨by decide,
   c6_legacy_fields_mirror "POST" (ReqBody.json (some "abc")) "k"
     (RemoteOutcome.ok (some "hi")) (by decide)⟩

end CameraApp

namespace CameraApp

/-- Helper: the two branches of the handler's data-URL normalization. -/
theorem processImageData_spec (s : String) :
    (jsStartsWith s "data:image" = true → processImageData s = s)
    ∧ (jsStartsWith s "data:image" = false →
        processImageData s = "data:image/jpeg;base64," ++ s
        ∧ jsStartsWith (processImageData s) "data:image/jpeg;base64," = true)
    ∧ jsStartsWith (processImageData s) "data:image" = true := by
  unfold processImageData
  by_cases hs : jsStartsWith s "data:image" = true
  · rw [if_pos hs]
    exact ⟨fun _ => rfl, fun hf => absurd hs (by simp [hf]), hs⟩
  · rw [if_neg hs]
    exact ⟨fun ht => absurd ht hs, fun _ => ⟨rfl, jsStartsWith_append _ s⟩,
           jsStartsWith_dataImage s⟩

/-- C8: whenever the proxy handler forwards a request to the vision model,
the forwarded image reference is the extracted image string normalized by
`processImageData`: a string already starting with `data:image` is
forwarded unchanged, a raw base64 string is forwarded with the
`data:image/jpeg;base64,` prefix synthesized — so the forwarded reference
always carries a `data:image` prefix. -/
theorem c8_data_url_prefix (m : String) (b : ReqBody) (k : String)
    (r : RemoteOutcome) (o : OutboundRequest)
    (ho : (handler m b k r).1 = some o) :
    ∃ img, extractedImageData b = some img
      ∧ o.imageUrl = processImageData img
      ∧ (jsStartsWith img "data:image" = true → o.imageUrl = img)
      ∧ (jsStartsWith img "data:image" = false →
          o.imageUrl = "data:image/jpeg;base64," ++ img
          ∧ jsStartsWith o.imageUrl "data:image/jpeg;base64," = true)
      ∧ jsStartsWith o.imageUrl "data:image" = true := by
  unfold handler callRemoteAndRespond at ho
  by_cases hm : m ≠ "POST"
  · rw [if_pos hm] at ho
    exact Option.noConfusion ho
  · rw [if_neg hm] at ho
    rcases b with pr | im | _
    · rcases pr with msg | img
      · exact Option.noConfusion ho
      · rcases img with _ | ⟨path, rr⟩
        · exact Option.noConfusion ho
        · rcases rr with msg | b64
          · exact Option.noConfusion ho
          · rcases r with t | ⟨resp, code, msg⟩
            · rcases t with _ | t <;>
                (simp at ho; subst ho;
                 exact ⟨"data:image/jpeg;base64," ++ b64, rfl, rfl,
                        (processImageData_spec _).1, (processImageData_spec _).2.1,
                        (processImageData_spec _).2.2⟩)
            · simp at ho; subst ho
              exact ⟨"data:image/jpeg;base64," ++ b64, rfl, rfl,
                     (processImageData_spec _).1, (processImageData_spec _).2.1,
                     (processImageData_spec _).2.2⟩
    · rcases im with _ | s
      · exact Option.noConfusion ho
      · by_cases he : s.isEmpty = true
        · simp [he] at ho
        · have himg : extractedImageData (ReqBody.json (some s)) = some s := by
            simp [extractedImageData, he]
          rcases r with t | ⟨resp, code, msg⟩
          · rcases t with _ | t <;>
              (simp [he] at ho; subst ho;
               exact ⟨s, himg, rfl, (processImageData_spec s).1,
                      (processImageData_spec s).2.1, (processImageData_spec s).2.2⟩)
          · simp [he] at ho; subst ho
            exact ⟨s, himg, rfl, (processImageData_spec s).1,
                   (processImageData_spec s).2.1, (processImageData_spec s).2.2⟩
    · exact Option.noConfusion ho

/-- Witness for `c8_data_url_prefix`: a JSON-path run with raw base64
`"abc"`; the forwarded reference is `data:image/jpeg;base64,abc`. -/
theorem c8_data_url_prefix_witness :
    ∃ img, extractedImageData (ReqBody.json (some "abc")) = some img
      ∧ OutboundRequest.imageUrl
          { url := "https://api.openai.com/v1/chat/completions"
          , authHeader := "Bearer sk", model := "gpt-4o"
          , promptText := "What's in this image? Describe what you see briefly."
          , imageUrl := "data:image/jpeg;base64,abc", maxTokens := 300
          , timeoutMs := 30000 } = processImageData img
      ∧ (jsStartsWith img "data:image" = true →
          OutboundRequest.imageUrl
            { url := "https://api.openai.com/v1/chat/completions"
            , authHeader := "Bearer sk", model := "gpt-4o"
            , promptText := "What's in this image? Describe what you see briefly."
            , imageUrl := "data:image/jpeg;base64,abc", maxTokens := 300
            , timeoutMs := 30000 } = img)
      ∧ (jsStartsWith img "data:image" = false →
          OutboundRequest.imageUrl
            { url := "https://api.openai.com/v1/chat/completions"
            , authHeader := "Bearer sk", model := "gpt-4o"
            , promptText := "What's in this image? Describe what you see briefly."
            , imageUrl := "data:image/jpeg;base64,abc", maxTokens := 300
            , timeoutMs := 30000 } = "data:image/jpeg;base64," ++ img
          ∧ jsStartsWith
              (OutboundRequest.imageUrl
                { url := "https://api.openai.com/v1/chat/completions"
                , authHeader := "Bearer sk", model := "gpt-4o"
                , promptText := "What's in this image? Describe what you see briefly."
                , imageUrl := "data:image/jpeg;base64,abc", maxTokens := 300
                , timeoutMs := 30000 }) "data:image/jpeg;base64," = true)
      ∧ jsStartsWith
          (OutboundRequest.imageUrl
            { url := "https://api.openai.com/v1/chat/completions"
            , authHeader := "Bearer sk", model := "gpt-4o"
            , promptText := "What's in this image? Describe what you see briefly."
            , imageUrl := "data:image/jpeg;base64,abc", maxTokens := 300
            , timeoutMs := 30000 }) "data:image" = true :=
  c8_data_url_prefix "POST" (ReqBody.json (some "abc")) "sk"
    (RemoteOutcome.ok (some "t"))
    { url := "https://api.openai.com/v1/chat/completions"
    , authHeader := "Bearer sk", model := "gpt-4o"
    , promptText := "What's in this image? Describe what you see briefly."
    , imageUrl := "data:image/jpeg;base64,abc", maxTokens := 300
    , timeoutMs := 30000 } (by decide)

end CameraApp

namespace CameraApp

/-- C4 (counterexample): a multipart request whose stored upload cannot be
read back (the base64 conversion throws).  The handler's catch returns 400
without running the `unlink`, so the temporary file `/tmp/upload-1.jpg`
outlives the request. -/
theorem c4_counterexample :
    (handler "POST"
        (ReqBody.multipart (MultipartParse.ok (some
          { path := "/tmp/upload-1.jpg"
          , readResult := Except.error "EACCES: permission denied" })))
        "sk-test" (RemoteOutcome.ok (some "a cat"))).2.2
      = ["/tmp/upload-1.jpg"]
    ∧ ["/tmp/upload-1.jpg"] ≠ ([] : List String) :=
  ⟨by decide, by decide⟩

/-- C4 (amended): the temporary upload file is deleted before the handler
returns on every exit path — success, missing-image validation failure,
unsupported content type, and remote-call failure (the `unlink` runs
before the remote call) — except one: when reading the stored file back
for base64 conversion fails, the catch answers 400 and the file survives
the request. -/
theorem c4_tempfile_amended (m : String) (b : ReqBody) (k : String)
    (r : RemoteOutcome) :
    (handler m b k r).2.2 = []
    ∨ ∃ p msg,
        b = ReqBody.multipart (MultipartParse.ok (some
          { path := p, readResult := Except.error msg }))
        ∧ (handler m b k r).2.2 = [p]
        ∧ (handler m b k r).2.1.status = 400 := by
  unfold handler callRemoteAndRespond
  split
  · exact Or.inl rfl
  · rcases b with pr | im | _
    · rcases pr with msg | img
      · exact Or.inl rfl
      · rcases img with _ | ⟨path, rr⟩
        · exact Or.inl rfl
        · rcases rr with msg | b64
          · exact Or.inr ⟨path, msg, rfl, rfl, rfl⟩
          · rcases r with t | ⟨resp, code, msg⟩
            · rcases t with _ | t <;> exact Or.inl rfl
            · exact Or.inl rfl
    · rcases im with _ | s
      · exact Or.inl rfl
      · rcases r with t | ⟨resp, code, msg⟩
        · rcases t with _ | t <;>
            by_cases he : s.isEmpty = true <;> exact Or.inl (by simp [he])
        · by_cases he : s.isEmpty = true <;> exact Or.inl (by simp [he])
    · exact Or.inl rfl

/-- C5 (counterexample): a remote timeout (`ECONNABORTED` after the 30 s
axios bound) and an ordinary remote HTTP failure both reach the browser as
HTTP 500, and `analyzeImage` turns both into the same thrown error message
built only from the status line — the caller receives no
timeout-distinguishable failure. -/
theorem c5_counterexample :
    (handler "POST" (ReqBody.json (some "abc")) "sk"
        (RemoteOutcome.fail none (some "ECONNABORTED")
          "timeout of 30000ms exceeded")).2.1.status = 500
    ∧ (handler "POST" (ReqBody.json (some "abc")) "sk"
        (RemoteOutcome.fail (some (429, "rate limited")) none
          "Request failed with status code 429")).2.1.status = 500
    ∧ clientFailureMessage
        (handler "POST" (ReqBody.json (some "abc")) "sk"
          (RemoteOutcome.fail none (some "ECONNABORTED")
            "timeout of 30000ms exceeded")).2.1.status
        "Internal Server Error"
      = clientFailureMessage
        (handler "POST" (ReqBody.json (some "abc")) "sk"
          (RemoteOutcome.fail (some (429, "rate limited")) none
            "Request failed with status code 429")).2.1.status
        "Internal Server Error"
    ∧ clientFetchTimeoutMs = none :=
  ⟨by decide, by decide, by decide, rfl⟩

/-- C5 (amended): the bounded wait exists only at the proxy — every
outbound remote call carries `timeout: 30000` — and on timeout the proxy
answers with a distinct 500 body (timeout message plus retry hint); the
browser client, however, sets no fetch timeout and collapses every non-2xx
response into a generic error built only from the status line, so equal
statuses yield identical caller-visible failures: no `TimeoutError` tag
reaches the caller. -/
theorem c5_timeout_amended (m : String) (b : ReqBody) (k : String)
    (r : RemoteOutcome) :
    (∀ o : OutboundRequest, (handler m b k r).1 = some o → o.timeoutMs = 30000)
    ∧ (∀ message, jsIncludes message "API key" = false →
        catchResponse none (some "ECONNABORTED") message
          = { status := 500
            , body := ProxyBody.errorBody
                "Request to OpenAI timed out. The image might be too large or the service might be experiencing high load."
                none (some "Try with a smaller image or retry later.") })
    ∧ (∀ (r₁ r₂ : RemoteOutcome) (statusText : String),
        (handler m b k r₁).2.1.status = (handler m b k r₂).2.1.status →
        clientFailureMessage (handler m b k r₁).2.1.status statusText
          = clientFailureMessage (handler m b k r₂).2.1.status statusText)
    ∧ clientFetchTimeoutMs = none := by
  refine ⟨?_, ?_, ?_, rfl⟩
  · intro o ho
    unfold handler callRemoteAndRespond at ho
    by_cases hm : m ≠ "POST"
    · rw [if_pos hm] at ho
      exact Option.noConfusion ho
    · rw [if_neg hm] at ho
      rcases b with pr | im | _
      · rcases pr with msg | img
        · exact Option.noConfusion ho
        · rcases img with _ | ⟨path, rr⟩
          · exact Option.noConfusion ho
          · rcases rr with msg | b64
            · exact Option.noConfusion ho
            · rcases r with t | ⟨resp, code, msg⟩
              · rcases t with _ | t <;> (simp at ho; subst ho; rfl)
              · simp at ho; subst ho; rfl
      · rcases im with _ | s
        · exact Option.noConfusion ho
        · by_cases he : s.isEmpty = true
          · simp [he] at ho
          · rcases r with t | ⟨resp, code, msg⟩
            · rcases t with _ | t <;> (simp [he] at ho; subst ho; rfl)
            · simp [he] at ho; subst ho; rfl
      · exact Option.noConfusion ho
  · intro message hmsg
    unfold catchResponse
    rw [if_neg (by simp [hmsg])]
    rw [if_pos (by rw [Bool.or_eq_true]; exact Or.inl (by decide))]
  · intro r₁ r₂ statusText h
    rw [h]

/-- Witness for `c5_timeout_amended`: the outbound request of a concrete
JSON run carries the 30 s bound; the timeout catch branch yields the
distinct 500 body; a concrete timeout run and a concrete remote-429 run
give the caller the same failure message. -/
theorem c5_timeout_amended_witness :
    OutboundRequest.timeoutMs
      { url := "https://api.openai.com/v1/chat/completions"
      , authHeader := "Bearer sk", model := "gpt-4o"
      , promptText := "What's in this image? Describe what you see briefly."
      , imageUrl := "data:image/jpeg;base64,abc", maxTokens := 300
      , timeoutMs := 30000 } = 30000
    ∧ catchResponse none (some "ECONNABORTED") "timeout of 30000ms exceeded"
        = { status := 500
          , body := ProxyBody.errorBody
              "Request to OpenAI timed out. The image might be too large or the service might be experiencing high load."
              none (some "Try with a smaller image or retry later.") }
    ∧ clientFailureMessage
        (handler "POST" (ReqBody.json (some "abc")) "sk"
          (RemoteOutcome.fail none (some "ECONNABORTED") "x")).2.1.status
        "Internal Server Error"
      = clientFailureMessage
        (handler "POST" (ReqBody.json (some "abc")) "sk"
          (RemoteOutcome.fail (some (429, "d")) none "y")).2.1.status
        "Internal Server Error" :=
  ⟨(c5_timeout_amended "POST" (ReqBody.json (some "abc")) "sk"
      (RemoteOutcome.ok (some "t"))).1 _ (by decide),
   (c5_timeout_amended "POST" (ReqBody.json (some "abc")) "sk"
      (RemoteOutcome.ok (some "t"))).2.1 "timeout of 30000ms exceeded" (by decide),
   (c5_timeout_amended "POST" (ReqBody.json (some "abc")) "sk"
      (RemoteOutcome.ok (some "t"))).2.2.1
     (RemoteOutcome.fail none (some "ECONNABORTED") "x")
     (RemoteOutcome.fail (some (429, "d")) none "y")
     "Internal Server Error" (by decide)⟩

end CameraApp
